import Mathlib

/-!
Verification development for the test-at-scale nucleus pipeline.

Shallow embedding of the task-lifecycle controller (`Start`, `runOldVersion`,
`runNewVersion`, `runDiscoveryForEachSubModule` in the core package) and of the
test-discovery dispatcher (`Discover`, `DiscoverV2` in pkg/testdiscoveryservice).
Go maps are embedded as association lists, the goroutine/wait-group fan-out and
the subprocess/channel rendezvous as explicit event traces, and fallible steps
as boolean outcome parameters with early-return control flow mirrored by `if`.
-/

namespace TAS

/-- Task status values (`Running, Passed, Failed, Error, Aborted` in the core
package). -/
inductive Status
  | running
  | passed
  | failed
  | error
  | aborted
deriving DecidableEq, Repr

/-- Modelled from the spec: the generic/safe remark constant
`errs.GenericErrRemark` lives in pkg/errs, which is not part of the sources
here; only the fact that it is one fixed generic message matters, never its
exact text. -/
def genericErrRemark : String := "some generic safe message"

/-- The error values that can reach the deferred finalizer in `Start`
(part_000 lines 100-122): a `context.Canceled` error, a `*errs.StatusFailed`
with its remark, or any other error carrying its message. -/
inductive RunError
  | canceled
  | statusFailed (remark : String)
  | other (msg : String)
deriving DecidableEq, Repr

/-- `err.Error()` for the errors of `RunError`. -/
def RunError.message : RunError → String
  | .canceled => "context canceled"
  | .statusFailed r => r
  | .other m => m

/-- How the controlled phase of `Start` ended: with a recovered panic, with a
non-nil error, or normally. -/
inductive Outcome
  | panicOf (p : String)
  | failure (e : RunError)
  | ok
deriving DecidableEq, Repr

/-- The mutable task payload fields the finalizer touches. -/
structure TaskPayload where
  status : Status
  remark : String
deriving DecidableEq, Repr

/-- The deferred finalizer of `Start` (part_000 lines 100-122): a recovered
panic gives `Error` with the generic remark; `context.Canceled` gives
`Aborted` with remark "Task aborted"; a `*errs.StatusFailed` gives `Failed`;
any other non-nil error gives `Error`; in the last two cases the remark is
`err.Error()`.  With no panic and a nil error the payload is left as the run
set it.  The function is total into `TaskPayload`: a recovered panic never
escapes `Start`. -/
def finalize (tp : TaskPayload) : Outcome → TaskPayload
  | .panicOf _ => { tp with status := .error, remark := genericErrRemark }
  | .failure .canceled => { tp with status := .aborted, remark := "Task aborted" }
  | .failure (.statusFailed r) => { tp with status := .failed, remark := r }
  | .failure (.other m) => { tp with status := .error, remark := m }
  | .ok => tp

/-- File-change kinds of the diff map (`core.FileRemoved` is the one compared
against in the selector). -/
inductive FileStatus
  | added
  | modified
  | removed
deriving DecidableEq, Repr

/-- The diff map `map[string]int` of changed files, embedded as an association
list from repo-relative path to change kind. -/
abbrev Diff : Type := List (String × FileStatus)

/-- `_, ok := diff[k]` : key membership in the diff map. -/
def diffHasKey (diff : Diff) (k : String) : Bool :=
  diff.any (fun kv => kv.1 == k)

/-- `discoverAll := tasYmlModified || !tasConfig.SmartRun`
(testdiscovery.go lines 56-66 and 157-167): discover everything when the tas
config file itself changed or smart run is off. -/
def discoverAllFlag (diff : Diff) (configFilePath : String) (smartRun : Bool) : Bool :=
  diffHasKey diff configFilePath || !smartRun

/-- The `--diff <path>` pairs appended by the range loop over the diff map
(testdiscovery.go lines 74-79 and 175-180): one pair per entry whose change
kind is not `FileRemoved`. -/
def diffPathArgs : Diff → List String
  | [] => []
  | (k, v) :: rest =>
      (if v ≠ FileStatus.removed then ["--diff", k] else []) ++ diffPathArgs rest

/-- The diff block of the argument builder (testdiscovery.go lines 69-81 and
170-182): skipped entirely when `discoverAll`; a single bare `--diff` when the
diff map is empty and diff computation succeeded; otherwise one `--diff <path>`
per non-removed entry. -/
def selectorDiffArgs (diff : Diff) (diffExists : Bool)
    (configFilePath : String) (smartRun : Bool) : List String :=
  if !(discoverAllFlag diff configFilePath smartRun) then
    if diff.isEmpty && diffExists then ["--diff"]
    else diffPathArgs diff
  else []

/-- `--config <path>` when a module config file is set
(testdiscovery.go lines 82-84 and 183-185). -/
def configArgs (configFile : String) : List String :=
  if configFile ≠ "" then ["--config", configFile] else []

/-- One `--pattern <glob>` per configured pattern
(testdiscovery.go lines 86-88 and 187-189). -/
def patternArgs : List String → List String
  | [] => []
  | p :: rest => ["--pattern", p] ++ patternArgs rest

/-- The full discovery CLI argument list built by `Discover` and `DiscoverV2`
(the two functions build it identically; they differ only in where the config
file and patterns come from): `--command discover`, then the diff block, then
the optional `--config`, then the patterns. -/
def discoveryArgs (diff : Diff) (diffExists : Bool) (configFilePath : String)
    (smartRun : Bool) (configFile : String) (patterns : List String) : List String :=
  ["--command", "discover"]
    ++ selectorDiffArgs diff diffExists configFilePath smartRun
    ++ configArgs configFile
    ++ patternArgs patterns

/-- Errors of the diff computation `DiffManager.GetChangedFiles`: the
distinguished `errs.ErrGitDiffNotFound`, or any other error. -/
inductive DiffError
  | gitDiffNotFound
  | otherDiffErr (msg : String)
deriving DecidableEq, Repr

/-- Diff-result handling in `runOldVersion` (part_000 lines 298-309) and
`runNewVersion` (lines 409-420): `diffExists` starts `true`; on
`errs.ErrGitDiffNotFound` it becomes `false` and the run proceeds with the nil
(empty) diff map; any other diff error aborts the run with a wrapped generic
error; on success the returned diff map is used with `diffExists = true`. -/
def handleDiffResult : Except DiffError Diff → Except RunError (Diff × Bool)
  | .ok d => .ok (d, true)
  | .error .gitDiffNotFound => .ok (([] : List (String × FileStatus)), false)
  | .error (.otherDiffErr _) =>
      .error (.other "Error occurred in fetching diff from GitHub")

/-- Observable events of one `Discover` / `DiscoverV2` invocation
(testdiscovery.go lines 91-119 and 192-221). -/
inductive DispatchEvent
  | getEnv
  | spawnSubprocess
  | subprocessExited (success : Bool)
  | channelReceive
  | reportResult
deriving DecidableEq, Repr

/-- Event trace of the tail of `Discover` / `DiscoverV2` after argument
building (the two functions share this control flow exactly):
`GetEnvVariables` may fail (early return, nothing spawned); `cmd.Run()` blocks
until the subprocess has exited and a non-zero exit returns early; only then
is the single blocking receive `<-tds.tdResChan` performed, followed by the
result report. -/
def dispatcherTrace (envOk runOk : Bool) : List DispatchEvent :=
  [DispatchEvent.getEnv]
    ++ if !envOk then []
       else [DispatchEvent.spawnSubprocess, DispatchEvent.subprocessExited runOk]
         ++ if !runOk then []
            else [DispatchEvent.channelReceive, DispatchEvent.reportResult]

/-- Build event types (`core.EventPush` / `core.EventPullRequest`). -/
inductive EventType
  | push
  | pullRequest
deriving DecidableEq, Repr

/-- Observable events of the schema-v2 coordinator `runNewVersion`
(part_000 lines 397-475). -/
inductive CoordEvent
  | downloadCache
  | computeDiff
  | spawnSubmoduleTask (i : Nat)
  | waitBarrier
  | cacheWorkspace
  | uploadCache
deriving DecidableEq, Repr

/-- Event trace of the discovery branch of `runNewVersion`
(part_000 lines 397-475), after config load and cache download succeed and
diff handling did not abort: the selected submodule list (post-merge on push,
pre-merge on pull request) is fanned out, one goroutine per submodule; the
pull-request branch then calls `wg.Wait()` while the push branch does not;
the coordinator then persists the workspace with `CacheWorkspace` and, if that
succeeded, calls `CacheStore.Upload` twice in sequence with the same key and
paths (lines 459-473), the second only when the first succeeded. -/
def runNewVersionTrace (et : EventType) (subCount : Nat)
    (cacheWorkspaceOk firstUploadOk : Bool) : List CoordEvent :=
  [CoordEvent.downloadCache, CoordEvent.computeDiff]
    ++ (List.range subCount).map CoordEvent.spawnSubmoduleTask
    ++ (match et with
        | .pullRequest => [CoordEvent.waitBarrier]
        | .push => [])
    ++ [CoordEvent.cacheWorkspace]
    ++ if !cacheWorkspaceOk then []
       else [CoordEvent.uploadCache]
         ++ if !firstUploadOk then [] else [CoordEvent.uploadCache]

/-- Observable events of one submodule discovery goroutine: the steps of
`runDiscoveryForEachSubModule` (part_000 lines 481-524) plus the wrapping
goroutine literal (lines 427-432 / 440-445).  `cancelSiblings` and
`setRunFailed` are actions the goroutine never performs: it has no access to
the coordinator's cancel function and writes neither `err` nor `taskPayload`
of the enclosing run. -/
inductive SubTaskEvent
  | fetchBlocklist
  | preRunCmds
  | installRunners
  | discoverCall
  | wgDone
  | logError
  | cancelSiblings
  | setRunFailed
deriving DecidableEq, Repr

/-- Event trace and returned-error flag of `runDiscoveryForEachSubModule`
(part_000 lines 481-524): blocklist fetch, optional pre-run commands, runner
install, then `DiscoverV2`; each step returns its error early, before the
final `wg.Done()`, which therefore runs only when every step succeeded. -/
def runDiscoveryForEachSubModuleTrace (hasPrerun blocklistOk prerunOk installOk
    discoverOk : Bool) : List SubTaskEvent × Bool :=
  if !blocklistOk then ([SubTaskEvent.fetchBlocklist], true)
  else if hasPrerun && !prerunOk then
    ([SubTaskEvent.fetchBlocklist, SubTaskEvent.preRunCmds], true)
  else
    let pre := [SubTaskEvent.fetchBlocklist]
      ++ (if hasPrerun then [SubTaskEvent.preRunCmds] else [])
    if !installOk then (pre ++ [SubTaskEvent.installRunners], true)
    else if !discoverOk then
      (pre ++ [SubTaskEvent.installRunners, SubTaskEvent.discoverCall], true)
    else
      (pre ++ [SubTaskEvent.installRunners, SubTaskEvent.discoverCall,
        SubTaskEvent.wgDone], false)

/-- Event trace of the goroutine launched per submodule by `runNewVersion`
(part_000 lines 427-432 and 440-445): it runs
`runDiscoveryForEachSubModule` and, exactly when that returned a non-nil
error, logs the error and calls `wg.Done()` itself. -/
def submoduleGoroutineTrace (hasPrerun blocklistOk prerunOk installOk
    discoverOk : Bool) : List SubTaskEvent :=
  let r := runDiscoveryForEachSubModuleTrace hasPrerun blocklistOk prerunOk
    installOk discoverOk
  r.1 ++ if r.2 then [SubTaskEvent.logError, SubTaskEvent.wgDone] else []

/-- Environment maps (`map[string]string`), embedded as association lists. -/
abbrev EnvMap : Type := List (String × String)

/-- Go map assignment `m[k] = v`: replace the binding of `k` if present,
otherwise add it. -/
def envInsert : EnvMap → String → String → EnvMap
  | [], k, v => [(k, v)]
  | (k', v') :: rest, k, v =>
      if k' = k then (k, v) :: rest else (k', v') :: envInsert rest k v

/-- Go map lookup `m[k]`. -/
def envLookup : EnvMap → String → Option String
  | [], _ => none
  | (k', v') :: rest, k => if k' = k then some v' else envLookup rest k

/-- The range loop `for k, v := range subModule.EnvMap { envMap[k] = v }`
(testdiscovery.go lines 152-154): write every override into the map. -/
def applyOverrides (m : EnvMap) : EnvMap → EnvMap
  | [] => m
  | (k, v) :: rest => applyOverrides (envInsert m k v) rest

/-- The fields of `core.TASConfigV2` that `DiscoverV2` reads or writes through:
the smart-run flag and the two merge-level env maps. -/
structure TASConfigV2 where
  smartRun : Bool
  preMergeEnv : EnvMap
  postMergeEnv : EnvMap
deriving DecidableEq, Repr

/-- The fields of `core.SubModule` that `DiscoverV2`'s env handling reads. -/
structure SubModule where
  name : String
  envMap : EnvMap
deriving DecidableEq, Repr

/-- The merge-level env map `DiscoverV2` selects (testdiscovery.go lines
145-150): pre-merge for pull requests, post-merge otherwise. -/
def mergeEnv (cfg : TASConfigV2) : EventType → EnvMap
  | .pullRequest => cfg.preMergeEnv
  | .push => cfg.postMergeEnv

/-- The effect of one `DiscoverV2` call on the shared `tasConfig`
(testdiscovery.go lines 145-154): `envMap` aliases the selected merge-level
map of `tasConfig` (a Go map header copy shares the underlying storage), so
the loop writing the submodule's overrides mutates that merge-level map in
place.  The call works with, and leaves behind, the overridden map. -/
def discoverV2EnvEffect (cfg : TASConfigV2) (et : EventType)
    (sub : SubModule) : TASConfigV2 :=
  match et with
  | .pullRequest => { cfg with preMergeEnv := applyOverrides cfg.preMergeEnv sub.envMap }
  | .push => { cfg with postMergeEnv := applyOverrides cfg.postMergeEnv sub.envMap }

/-! Helper lemmas about the selector argument fragments and the env maps. -/

/-- Elements of the pattern fragment are the `--pattern` flag or a pattern. -/
theorem mem_patternArgs (x : String) (ps : List String) (h : x ∈ patternArgs ps) :
    x = "--pattern" ∨ x ∈ ps := by
  induction ps with
  | nil => simp [patternArgs] at h
  | cons p rest ih =>
      simp only [patternArgs, List.cons_append, List.nil_append, List.mem_cons] at h
      rcases h with h | h | h
      · exact Or.inl h
      · exact Or.inr (by simp [h])
      · rcases ih h with h' | h'
        · exact Or.inl h'
        · exact Or.inr (List.mem_cons_of_mem _ h')

/-- The diff-path fragment is the concatenation of one `--diff <path>` pair per
entry whose change kind is not removed, and nothing for removed entries. -/
theorem diffPathArgs_eq_join (d : Diff) :
    diffPathArgs d
      = (d.map (fun kv =>
          if kv.2 = FileStatus.removed then [] else ["--diff", kv.1])).flatten := by
  induction d with
  | nil => rfl
  | cons kv rest ih =>
      obtain ⟨k, v⟩ := kv
      by_cases hv : v = FileStatus.removed
      · simp [diffPathArgs, hv, ih]
      · simp [diffPathArgs, hv, ih]

/-- Counting `--diff` flags in the diff-path fragment: one per non-removed
entry, provided no changed path is itself the literal string `--diff`. -/
theorem diffPathArgs_count (d : Diff) (hnd : "--diff" ∉ d.map Prod.fst) :
    (diffPathArgs d).count "--diff"
      = (d.filter (fun kv => kv.2 ≠ FileStatus.removed)).length := by
  induction d with
  | nil => rfl
  | cons kv rest ih =>
      obtain ⟨k, v⟩ := kv
      simp only [List.map_cons, List.mem_cons] at hnd
      push_neg at hnd
      obtain ⟨hk, hrest⟩ := hnd
      by_cases hv : v = FileStatus.removed
      · simpa [diffPathArgs, hv, List.filter_cons] using ih hrest
      · simp [diffPathArgs, hv, List.filter_cons, List.count_cons, ih hrest,
          Ne.symm hk]

/-- Looking up the key just written by a Go map assignment yields its value. -/
theorem envLookup_envInsert_self (m : EnvMap) (k v : String) :
    envLookup (envInsert m k v) k = some v := by
  induction m with
  | nil => simp [envInsert, envLookup]
  | cons kv rest ih =>
      obtain ⟨a, b⟩ := kv
      by_cases h : a = k
      · simp [envInsert, h, envLookup]
      · simp [envInsert, h, envLookup, ih]

/-- A Go map assignment leaves lookups of other keys unchanged. -/
theorem envLookup_envInsert_ne (m : EnvMap) (k' v k : String) (h : k' ≠ k) :
    envLookup (envInsert m k' v) k = envLookup m k := by
  induction m with
  | nil => simp [envInsert, envLookup, h]
  | cons kv rest ih =>
      obtain ⟨a, b⟩ := kv
      by_cases ha : a = k'
      · subst ha
        simp [envInsert, envLookup, h]
      · by_cases hak : a = k
        · simp [envInsert, ha, envLookup, hak, Ne.symm h]
        · simp [envInsert, ha, envLookup, hak, ih]

/-- Keys an override map does not bind keep their value across the override
loop of `DiscoverV2`. -/
theorem envLookup_applyOverrides_of_none (ov : EnvMap) (m : EnvMap) (k : String)
    (h : envLookup ov k = none) :
    envLookup (applyOverrides m ov) k = envLookup m k := by
  induction ov generalizing m with
  | nil => rfl
  | cons kv rest ih =>
      obtain ⟨k', v'⟩ := kv
      by_cases hk : k' = k
      · simp [envLookup, hk] at h
      · simp only [envLookup, hk, if_neg hk] at h
        rw [applyOverrides, ih _ h]
        exact envLookup_envInsert_ne m k' v' k hk

/-! Claim theorems. -/

/-- C3 (counterexample): the claim says any non-nil error other than
cancellation and `StatusFailed` is finalized as `Error` with a generic/safe
remark that does not leak the internal error detail.  In the finalizer
(part_000 line 116) the remark is `err.Error()` for every non-canceled error:
at the concrete internal error below the remark is the error's own message, it
differs from the generic remark, and it varies with the error — so it is not a
fixed generic message. -/
theorem finalize_other_error_remark_leaks :
    (finalize ⟨Status.running, ""⟩
        (Outcome.failure (RunError.other "dial tcp 10.0.0.7: connection refused"))).remark
      = "dial tcp 10.0.0.7: connection refused"
    ∧ (finalize ⟨Status.running, ""⟩
        (Outcome.failure (RunError.other "dial tcp 10.0.0.7: connection refused"))).remark
      ≠ genericErrRemark
    ∧ (finalize ⟨Status.running, ""⟩
        (Outcome.failure (RunError.other "dial tcp 10.0.0.7: connection refused"))).remark
      ≠ (finalize ⟨Status.running, ""⟩
          (Outcome.failure (RunError.other "file not found"))).remark := by
  refine ⟨rfl, ?_, ?_⟩ <;> decide

/-- C3 (amended): for every run reaching the finalizer with a non-nil error,
a context-cancellation error gives status `Aborted` with remark "Task
aborted"; a `StatusFailed` error gives status `Failed` with the failure's own
message as remark; and any other non-nil error gives status `Error` with the
error's own message as remark (the finalizer itself does not substitute a
generic message; most call sites, but not all, pre-wrap internal errors in
the generic remark before returning). -/
theorem finalize_error_classification (tp : TaskPayload) (r m : String) :
    finalize tp (Outcome.failure RunError.canceled)
      = { tp with status := Status.aborted, remark := "Task aborted" }
    ∧ finalize tp (Outcome.failure (RunError.statusFailed r))
      = { tp with status := Status.failed, remark := r }
    ∧ finalize tp (Outcome.failure (RunError.other m))
      = { tp with status := Status.error, remark := m } :=
  ⟨rfl, rfl, rfl⟩

/-- C7: a panic raised inside the controlled phase is recovered by the
deferred finalizer of `Start` (part_000 lines 102-105) and converted to the
terminal status `Error` with the generic remark, whatever the panic value and
whatever state the payload was in; `finalize` is a total function into
`TaskPayload`, so a recovered panic never propagates out of the run. -/
theorem finalize_recovers_panic (tp : TaskPayload) (p : String) :
    finalize tp (Outcome.panicOf p)
      = { tp with status := Status.error, remark := genericErrRemark } :=
  rfl

/-- C8: a diff computation failing with the distinguished `ErrGitDiffNotFound`
does not fail the run: `handleDiffResult` converts it into a successful
outcome with an empty diff map and `diffExists = false` (part_000 lines
298-309 and 409-420), and on that pair the selector emits no `--diff`
arguments at all — the argument list is exactly the base command plus config
and pattern arguments, i.e. full discovery. -/
theorem diff_not_found_falls_back_to_full_discovery (smartRun : Bool)
    (configFilePath configFile : String) (patterns : List String) :
    handleDiffResult (Except.error DiffError.gitDiffNotFound)
      = Except.ok (([] : Diff), false)
    ∧ discoveryArgs ([] : Diff) false configFilePath smartRun configFile patterns
      = ["--command", "discover"] ++ configArgs configFile ++ patternArgs patterns := by
  refine ⟨rfl, ?_⟩
  unfold discoveryArgs selectorDiffArgs
  cases h : discoverAllFlag ([] : Diff) configFilePath smartRun <;>
    simp [diffPathArgs]

/-- C4: whenever the active config file path is a key of the diff map, or
smart run is off, the selector chooses full discovery: the emitted argument
list is exactly `--command discover` followed by the config and pattern
arguments — the diff block contributes nothing — and hence contains no
`--diff` token at all (given that no configured pattern and no module config
file is the literal string `--diff`). -/
theorem discoverAll_emits_no_diff_args (diff : Diff) (diffExists : Bool)
    (configFilePath : String) (smartRun : Bool) (configFile : String)
    (patterns : List String)
    (h : diffHasKey diff configFilePath = true ∨ smartRun = false) :
    discoveryArgs diff diffExists configFilePath smartRun configFile patterns
      = ["--command", "discover"] ++ configArgs configFile ++ patternArgs patterns
    ∧ ("--diff" ∉ patterns → configFile ≠ "--diff" →
        "--diff" ∉
          discoveryArgs diff diffExists configFilePath smartRun configFile patterns) := by
  have hall : discoverAllFlag diff configFilePath smartRun = true := by
    unfold discoverAllFlag
    rcases h with h | h <;> simp [h]
  have heq : discoveryArgs diff diffExists configFilePath smartRun configFile patterns
      = ["--command", "discover"] ++ configArgs configFile ++ patternArgs patterns := by
    unfold discoveryArgs selectorDiffArgs
    simp [hall]
  refine ⟨heq, fun hp hc hmem => ?_⟩
  rw [heq] at hmem
  rcases List.mem_append.mp hmem with h12 | h3
  · rcases List.mem_append.mp h12 with h1 | h2
    · exact absurd h1 (by decide)
    · unfold configArgs at h2
      by_cases hcf : configFile = ""
      · simp [hcf] at h2
      · rw [if_pos hcf] at h2
        rcases List.mem_cons.mp h2 with h2 | h2
        · exact absurd h2 (by decide)
        · exact hc (List.mem_singleton.mp h2).symm
  · rcases mem_patternArgs _ _ h3 with h4 | h4
    · exact absurd h4 (by decide)
    · exact hp h4

/-- C4 (witness): a diff map containing the active config file path forces
full discovery at a concrete input. -/
theorem discoverAll_emits_no_diff_args_spot :
    (diffHasKey [("tas.yml", FileStatus.modified)] "tas.yml" = true
        ∨ (true : Bool) = false)
    ∧ (discoveryArgs [("tas.yml", FileStatus.modified)] true "tas.yml" true ""
          ["**/*.test.ts"]
        = ["--command", "discover"] ++ configArgs "" ++ patternArgs ["**/*.test.ts"]
      ∧ ("--diff" ∉ ["**/*.test.ts"] → ("" : String) ≠ "--diff" →
          "--diff" ∉
            discoveryArgs [("tas.yml", FileStatus.modified)] true "tas.yml" true ""
              ["**/*.test.ts"])) :=
  ⟨Or.inl (by decide),
   discoverAll_emits_no_diff_args [("tas.yml", FileStatus.modified)] true "tas.yml"
     true "" ["**/*.test.ts"] (Or.inl (by decide))⟩

/-- C5: when full discovery is not chosen (smart run on, config file
unchanged), a genuinely empty diff with successful diff computation emits a
single bare `--diff` sentinel and no `--diff <path>` pairs; in every other
case the diff block is the concatenation of one `--diff <path>` pair per
entry whose change kind is not removed and nothing for removed entries, and
(when no changed path is the literal `--diff`) the number of `--diff` flags
equals the number of non-removed entries. -/
theorem smart_selection_diff_args (diff : Diff) (diffExists : Bool)
    (configFilePath : String) (smartRun : Bool) (configFile : String)
    (patterns : List String)
    (hs : smartRun = true) (hc : diffHasKey diff configFilePath = false) :
    (diff = [] ∧ diffExists = true →
      discoveryArgs diff diffExists configFilePath smartRun configFile patterns
        = ["--command", "discover"] ++ ["--diff"]
            ++ configArgs configFile ++ patternArgs patterns)
    ∧ (¬(diff = [] ∧ diffExists = true) →
        discoveryArgs diff diffExists configFilePath smartRun configFile patterns
          = ["--command", "discover"] ++ diffPathArgs diff
              ++ configArgs configFile ++ patternArgs patterns)
    ∧ diffPathArgs diff
        = (diff.map (fun kv =>
            if kv.2 = FileStatus.removed then [] else ["--diff", kv.1])).flatten
    ∧ ("--diff" ∉ diff.map Prod.fst →
        (diffPathArgs diff).count "--diff"
          = (diff.filter (fun kv => kv.2 ≠ FileStatus.removed)).length) := by
  have hall : discoverAllFlag diff configFilePath smartRun = false := by
    unfold discoverAllFlag
    simp [hs, hc]
  refine ⟨?_, ?_, diffPathArgs_eq_join diff, diffPathArgs_count diff⟩
  · rintro ⟨hd, he⟩
    subst hd
    subst he
    unfold discoveryArgs selectorDiffArgs
    simp [hall]
  · intro hne
    unfold discoveryArgs selectorDiffArgs
    have hfalse : (diff.isEmpty && diffExists) = false := by
      rcases Decidable.em (diff = []) with hd | hd
      · cases diffExists
        · simp
        · exact absurd ⟨hd, rfl⟩ hne
      · simp [List.isEmpty_iff, hd]
    simp [hall, hfalse]

/-- C5 (witness): with `smartRun = true`, an unchanged config file and the
diff map `a.ts ↦ Modified, b.ts ↦ Removed`, the emitted arguments contain
`--diff a.ts` and omit `b.ts`. -/
theorem smart_selection_diff_args_spot :
    ((true : Bool) = true
      ∧ diffHasKey [("a.ts", FileStatus.modified), ("b.ts", FileStatus.removed)]
          "tas.yml" = false)
    ∧ (¬(([("a.ts", FileStatus.modified), ("b.ts", FileStatus.removed)] : Diff) = []
          ∧ (true : Bool) = true) →
        discoveryArgs [("a.ts", FileStatus.modified), ("b.ts", FileStatus.removed)]
            true "tas.yml" true "" ["**/*.test.ts"]
          = ["--command", "discover"]
              ++ diffPathArgs [("a.ts", FileStatus.modified), ("b.ts", FileStatus.removed)]
              ++ configArgs "" ++ patternArgs ["**/*.test.ts"])
    ∧ diffPathArgs [("a.ts", FileStatus.modified), ("b.ts", FileStatus.removed)]
        = ["--diff", "a.ts"] :=
  ⟨⟨rfl, by decide⟩,
   (smart_selection_diff_args
      [("a.ts", FileStatus.modified), ("b.ts", FileStatus.removed)] true "tas.yml"
      true "" ["**/*.test.ts"] rfl (by decide)).2.1,
   by decide⟩

/-- C6: in every `Discover` / `DiscoverV2` invocation, for every combination
of env-resolution and subprocess outcomes, the single blocking receive on the
discovery-result channel is performed at most once, every occurrence of the
receive is preceded in the trace by a successful subprocess exit, and the
receive happens at all only when the subprocess exited successfully. -/
theorem dispatcher_receive_after_subprocess_exit :
    ∀ envOk runOk : Bool,
      ((dispatcherTrace envOk runOk).count DispatchEvent.channelReceive ≤ 1)
      ∧ (∀ i, i < (dispatcherTrace envOk runOk).length →
          (dispatcherTrace envOk runOk).getD i DispatchEvent.getEnv
            = DispatchEvent.channelReceive →
          ∃ j, j < i ∧ (dispatcherTrace envOk runOk).getD j DispatchEvent.getEnv
            = DispatchEvent.subprocessExited true)
      ∧ (DispatchEvent.channelReceive ∈ dispatcherTrace envOk runOk →
          runOk = true ∧ envOk = true) := by
  decide

/-- C6 (witness): on the all-success trace the receive sits at index 3, after
the successful subprocess exit at index 2. -/
theorem dispatcher_receive_after_subprocess_exit_spot :
    (3 < (dispatcherTrace true true).length)
    ∧ ((dispatcherTrace true true).getD 3 DispatchEvent.getEnv
        = DispatchEvent.channelReceive)
    ∧ (∃ j, j < 3 ∧ (dispatcherTrace true true).getD j DispatchEvent.getEnv
        = DispatchEvent.subprocessExited true) :=
  ⟨by decide, by decide,
   (dispatcher_receive_after_subprocess_exit true true).2.1 3 (by decide) (by decide)⟩

/-- C9: for every combination of step outcomes of a schema-v2 submodule
discovery goroutine, the wait-group is decremented exactly once — on success
by the `wg.Done()` at the end of `runDiscoveryForEachSubModule`, on any
failure by the `wg.Done()` in the goroutine's error branch — and the
goroutine never cancels its sibling tasks and never marks the overall run
failed. -/
theorem submodule_task_signals_barrier_exactly_once :
    ∀ hasPrerun blocklistOk prerunOk installOk discoverOk : Bool,
      ((submoduleGoroutineTrace hasPrerun blocklistOk prerunOk installOk
          discoverOk).count SubTaskEvent.wgDone = 1)
      ∧ SubTaskEvent.cancelSiblings ∉
          submoduleGoroutineTrace hasPrerun blocklistOk prerunOk installOk discoverOk
      ∧ SubTaskEvent.setRunFailed ∉
          submoduleGoroutineTrace hasPrerun blocklistOk prerunOk installOk discoverOk := by
  decide

/-- C1 (code evaluated at the failing input): in the push-event schema-v2 run
with three submodules the coordinator's trace contains no `wg.Wait()` at all,
yet still reaches workspace persistence and cache upload; only the
pull-request branch waits on the barrier before persisting. -/
theorem push_path_skips_barrier_wait :
    CoordEvent.waitBarrier ∉ runNewVersionTrace EventType.push 3 true true
    ∧ CoordEvent.cacheWorkspace ∈ runNewVersionTrace EventType.push 3 true true
    ∧ CoordEvent.uploadCache ∈ runNewVersionTrace EventType.push 3 true true
    ∧ CoordEvent.waitBarrier ∈ runNewVersionTrace EventType.pullRequest 3 true true := by
  decide

/-- C2 (code evaluated at the failing input): on every schema-v2 discovery run
that reaches cache upload and succeeds, `CacheStore.Upload` is invoked twice
with the same key and paths, not once — for push and pull-request events
alike. -/
theorem cache_upload_invoked_twice :
    ((runNewVersionTrace EventType.pullRequest 1 true true).count
        CoordEvent.uploadCache = 2)
    ∧ ((runNewVersionTrace EventType.push 3 true true).count
        CoordEvent.uploadCache = 2) := by
  decide

/-- C10: a `DiscoverV2` call writes the submodule's env overrides directly
into the shared merge-level env map of `tasConfig` (pre-merge on pull
request, post-merge on push): afterwards that map is the overridden map, so
whenever the overrides actually bind some key to a fresh value the map is not
left unchanged, and an entry written for one submodule is still visible to a
later `DiscoverV2` call sharing the same config whose submodule does not
override that key. -/
theorem discoverV2_overrides_shared_env_map (cfg : TASConfigV2) (et : EventType)
    (s1 s2 : SubModule) (k v : String)
    (hset : envLookup (applyOverrides (mergeEnv cfg et) s1.envMap) k = some v)
    (hfresh : envLookup (mergeEnv cfg et) k ≠ some v)
    (hs2 : envLookup s2.envMap k = none) :
    mergeEnv (discoverV2EnvEffect cfg et s1) et
      = applyOverrides (mergeEnv cfg et) s1.envMap
    ∧ mergeEnv (discoverV2EnvEffect cfg et s1) et ≠ mergeEnv cfg et
    ∧ envLookup
        (mergeEnv (discoverV2EnvEffect (discoverV2EnvEffect cfg et s1) et s2) et) k
      = some v := by
  have heq : mergeEnv (discoverV2EnvEffect cfg et s1) et
      = applyOverrides (mergeEnv cfg et) s1.envMap := by
    cases et <;> rfl
  have heq2 : mergeEnv (discoverV2EnvEffect (discoverV2EnvEffect cfg et s1) et s2) et
      = applyOverrides (applyOverrides (mergeEnv cfg et) s1.envMap) s2.envMap := by
    cases et <;> rfl
  refine ⟨heq, ?_, ?_⟩
  · intro hsame
    rw [heq] at hsame
    rw [hsame] at hset
    exact hfresh hset
  · rw [heq2, envLookup_applyOverrides_of_none s2.envMap _ k hs2]
    exact hset

/-- C10 (witness): a pull-request `DiscoverV2` for a submodule with override
`NODE_ENV=test` changes the shared pre-merge env map and the entry is still
visible to a second call for a submodule without that override. -/
theorem discoverV2_overrides_shared_env_map_spot :
    (envLookup
        (applyOverrides (mergeEnv ⟨true, [], []⟩ EventType.pullRequest)
          [("NODE_ENV", "test")]) "NODE_ENV" = some "test")
    ∧ (envLookup (mergeEnv ⟨true, [], []⟩ EventType.pullRequest) "NODE_ENV"
        ≠ some "test")
    ∧ (envLookup ([("OTHER", "1")] : EnvMap) "NODE_ENV" = none)
    ∧ (mergeEnv
          (discoverV2EnvEffect ⟨true, [], []⟩ EventType.pullRequest
            ⟨"m1", [("NODE_ENV", "test")]⟩) EventType.pullRequest
        = applyOverrides (mergeEnv ⟨true, [], []⟩ EventType.pullRequest)
            [("NODE_ENV", "test")]
      ∧ mergeEnv
          (discoverV2EnvEffect ⟨true, [], []⟩ EventType.pullRequest
            ⟨"m1", [("NODE_ENV", "test")]⟩) EventType.pullRequest
        ≠ mergeEnv ⟨true, [], []⟩ EventType.pullRequest
      ∧ envLookup
          (mergeEnv
            (discoverV2EnvEffect
              (discoverV2EnvEffect ⟨true, [], []⟩ EventType.pullRequest
                ⟨"m1", [("NODE_ENV", "test")]⟩)
              EventType.pullRequest ⟨"m2", [("OTHER", "1")]⟩)
            EventType.pullRequest) "NODE_ENV"
        = some "test") :=
  ⟨by decide, by decide, by decide,
   discoverV2_overrides_shared_env_map ⟨true, [], []⟩ EventType.pullRequest
     ⟨"m1", [("NODE_ENV", "test")]⟩ ⟨"m2", [("OTHER", "1")]⟩ "NODE_ENV" "test"
     (by decide) (by decide) (by decide)⟩

end TAS
